import Mathlib

/-!
Verification of the conversimple SDK dispatcher (`src/conversimple/dispatcher.py`)
and, where the corresponding modules are absent from the source excerpt, of the
spec-described connection state machine and tool registry.

The dispatcher is embedded as a pure state-transition system: Python dicts become
association lists, `asyncio.Task` objects become task identifiers mapped to a
status table, and the (absent) agent class's `start`/`stop` coroutines become an
environment of `Except`-valued oracles keyed by agent-instance identifier, so
that "the handler raises" is representable and "the exception is caught" is
visible in the match structure of each embedded function.
-/

namespace Conversimple

/-- Association-list lookup, modelling Python `dict.get` / `dict.__contains__`
(first matching key wins; a well-formed dict has no duplicate keys). -/
def dictLookup {β : Type} (l : List (String × β)) (k : String) : Option β :=
  match l with
  | [] => none
  | (k1, v) :: rest => if k1 = k then some v else dictLookup rest k

/-- Association-list removal of the first entry with the given key, modelling
`dict.pop(k, None)`'s removal effect. -/
def dictRemove {β : Type} (l : List (String × β)) (k : String) : List (String × β) :=
  match l with
  | [] => []
  | (k1, v) :: rest => if k1 = k then rest else (k1, v) :: dictRemove rest k

/-- Status of a supervising `asyncio.Task` in the model's task table. -/
inductive TaskStatus
  | running
  | done
  | cancelled
deriving DecidableEq, Repr

/-- Task-table lookup by task identifier. -/
def lookupTask (tasks : List (Nat × TaskStatus)) (tid : Nat) : Option TaskStatus :=
  match tasks with
  | [] => none
  | (t, s) :: rest => if t = tid then some s else lookupTask rest tid

/-- Set a task's status: replace the first entry for the identifier, or append a
fresh entry when the identifier is not yet in the table. -/
def setTaskStatus (tasks : List (Nat × TaskStatus)) (tid : Nat) (s : TaskStatus) :
    List (Nat × TaskStatus) :=
  match tasks with
  | [] => [(tid, s)]
  | (t, s1) :: rest =>
      if t = tid then (t, s) :: rest else (t, s1) :: setTaskStatus rest tid s

/-- Model of `session.task.done()`: a task absent from the table counts as live. -/
def taskIsDone (tasks : List (Nat × TaskStatus)) (tid : Nat) : Bool :=
  match lookupTask tasks tid with
  | some TaskStatus.done => true
  | _ => false

/-- Embeds the `AgentSession` dataclass (dispatcher.py lines 136-144).  The
`ConversimpleAgent` object is represented by an agent-instance identifier and
the `asyncio.Task` by a task identifier into the dispatcher's task table. -/
structure AgentSession where
  agent_id : String
  conversation_id : String
  agent : Nat
  task : Nat
deriving DecidableEq, Repr

/-- The dispatcher's mutable state: `active_sessions` is the Python dict keyed
by conversation id; `tasks` is the model's table of supervising-task statuses;
`constructedAgents` counts agent-instance constructions (each construction
yields the next fresh identifier); `nextTaskId` supplies fresh task ids;
`connected` models the control-plane connection's up/down status. -/
structure DState where
  active_sessions : List (String × AgentSession)
  tasks : List (Nat × TaskStatus)
  constructedAgents : Nat
  nextTaskId : Nat
  connected : Bool
deriving DecidableEq, Repr

/-- The keys of the consulted fields of an incoming control-plane payload dict;
`none` models an absent key (`payload.get` returning `None`). -/
structure Payload where
  event : Option String
  conversation_id : Option String
  agent_id : Option String
deriving DecidableEq, Repr

/-- Python truthiness test `not x` for an optional string: true when the key is
absent or the string is empty. -/
def isFalsy (o : Option String) : Bool :=
  match o with
  | none => true
  | some s => s = ""

/-- The agent registry as an injected lookup table from agent id to a
registered entry (the class object carries no observable structure here, so the
entry type is `Unit`); models `self.registry.get(agent_id)`. -/
def Registry : Type := List (String × Unit)

/-- Behaviour oracle for the (absent) `ConversimpleAgent` class: for each
agent-instance identifier, whether `agent.start(...)` and `agent.stop()` return
normally or raise (an `Except.error` with the exception message). -/
structure Env where
  startResult : Nat → Except String Unit
  stopResult : Nat → Except String Unit

/-- Embeds `ConversimpleDispatcher._handle_conversation_ready`
(dispatcher.py lines 211-245): drop the event when `conversation_id` or
`agent_id` is falsy, when the conversation already has an active session, or
when the agent id is not registered; otherwise construct the agent instance,
launch the supervising task, and record the session. -/
def handle_conversation_ready (reg : Registry) (p : Payload) (st : DState) : DState :=
  match p.conversation_id with
  | none => st
  | some cid =>
    if cid = "" then st
    else
      match p.agent_id with
      | none => st
      | some aid =>
        if aid = "" then st
        else if (dictLookup st.active_sessions cid).isSome then st
        else
          match dictLookup reg aid with
          | none => st
          | some _ =>
            let inst := st.constructedAgents
            let tid := st.nextTaskId
            { st with
              constructedAgents := st.constructedAgents + 1
              nextTaskId := st.nextTaskId + 1
              tasks := setTaskStatus st.tasks tid TaskStatus.running
              active_sessions :=
                st.active_sessions ++
                  [(cid, { agent_id := aid, conversation_id := cid, agent := inst, task := tid })] }

/-- Embeds `ConversimpleDispatcher._stop_session` (dispatcher.py lines
274-290): pop the session (no-op when absent), call `agent.stop()` with any
exception caught and logged (both branches of the match leave the state
untouched), then cancel the supervising task and await the cancellation when it
is not yet done. -/
def stop_session (env : Env) (st : DState) (cid : String) : DState :=
  match dictLookup st.active_sessions cid with
  | none => st
  | some session =>
      let sessions1 := dictRemove st.active_sessions cid
      let tasks1 :=
        match env.stopResult session.agent with
        | Except.ok _ => st.tasks
        | Except.error _ => st.tasks
      let tasks2 :=
        if taskIsDone tasks1 session.task then tasks1
        else setTaskStatus tasks1 session.task TaskStatus.cancelled
      { st with active_sessions := sessions1, tasks := tasks2 }

/-- Embeds `ConversimpleDispatcher._handle_conversation_lifecycle`
(dispatcher.py lines 247-256): only `conversation_ended` events with a truthy
conversation id reach `_stop_session`. -/
def handle_conversation_lifecycle (env : Env) (p : Payload) (st : DState) : DState :=
  if p.event ≠ some "conversation_ended" then st
  else
    match p.conversation_id with
    | none => st
    | some cid => if cid = "" then st else stop_session env st cid

/-- Embeds `ConversimpleDispatcher._handle_platform_message` (dispatcher.py
lines 198-209): route the two recognised lifecycle events; `connection_warning`,
`config_update` and unknown events are logged only. -/
def handle_platform_message (reg : Registry) (env : Env) (event : String)
    (p : Payload) (st : DState) : DState :=
  if event = "conversation_ready" then handle_conversation_ready reg p st
  else if event = "conversation_lifecycle" then handle_conversation_lifecycle env p st
  else if event = "connection_warning" then st
  else if event = "config_update" then st
  else st

/-- Embeds `ConversimpleDispatcher._run_agent` (dispatcher.py lines 258-272):
the supervising task's body awaits `agent.start(...)`; any exception is caught
and the session entry popped; the function itself always returns normally, and
the scheduler then marks the supervising task completed. -/
def run_agent (env : Env) (agentInst : Nat) (cid : String) (tid : Nat) (st : DState) : DState :=
  let st1 :=
    match env.startResult agentInst with
    | Except.ok _ => st
    | Except.error _ => { st with active_sessions := dictRemove st.active_sessions cid }
  { st1 with tasks := setTaskStatus st1.tasks tid TaskStatus.done }

/-- Sequential elaboration of `asyncio.gather` over the `_stop_session`
coroutines launched by `stop()`: each coroutine touches only its own session's
entry and task, and `return_exceptions=True` isolates failures, so running them
in order is an adequate model of the concurrent gather. -/
def stopAllSessions (env : Env) (st : DState) (cids : List String) : DState :=
  match cids with
  | [] => st
  | c :: rest => stopAllSessions env (stop_session env st c) rest

/-- Events observable during dispatcher shutdown, used to record the order of
session stops relative to the control-plane disconnect. -/
inductive StopEvent
  | sessionStopped (cid : String)
  | disconnected
deriving DecidableEq, Repr

/-- Embeds `ConversimpleDispatcher.stop` (dispatcher.py lines 186-194):
snapshot the active sessions, stop them all (failures isolated), and only then
disconnect the control-plane connection.  The returned trace records the order
of the observable steps. -/
def dispatcher_stop (env : Env) (st : DState) : DState × List StopEvent :=
  let cids := st.active_sessions.map (fun p => (p.2).conversation_id)
  let st1 := stopAllSessions env st cids
  let st2 := { st1 with connected := false }
  (st2, cids.map StopEvent.sessionStopped ++ [StopEvent.disconnected])

/-! ### MD5 and customer-id derivation

`ConversimpleDispatcher._derive_customer_id` (dispatcher.py lines 303-307)
computes `hashlib.md5(api_key.encode()).hexdigest()[:12]`.  The MD5 algorithm
(RFC 1321) is embedded below over byte lists, with 32-bit words as naturals
reduced modulo 2^32. -/

/-- Reduce a natural modulo 2^32, the word size of the MD5 state. -/
def w32 (n : Nat) : Nat := n % 4294967296

/-- 32-bit left rotation. -/
def rotl32 (x c : Nat) : Nat := w32 ((x <<< c) ||| (x >>> (32 - c)))

/-- 32-bit bitwise complement. -/
def not32 (x : Nat) : Nat := 4294967295 - w32 x

/-- The 64 MD5 round constants `T[i] = floor(2^32 * abs(sin(i+1)))` (RFC 1321). -/
def md5K (i : Nat) : Nat :=
  [0xd76aa478, 0xe8c7b756, 0x242070db, 0xc1bdceee,
   0xf57c0faf, 0x4787c62a, 0xa8304613, 0xfd469501,
   0x698098d8, 0x8b44f7af, 0xffff5bb1, 0x895cd7be,
   0x6b901122, 0xfd987193, 0xa679438e, 0x49b40821,
   0xf61e2562, 0xc040b340, 0x265e5a51, 0xe9b6c7aa,
   0xd62f105d, 0x02441453, 0xd8a1e681, 0xe7d3fbc8,
   0x21e1cde6, 0xc33707d6, 0xf4d50d87, 0x455a14ed,
   0xa9e3e905, 0xfcefa3f8, 0x676f02d9, 0x8d2a4c8a,
   0xfffa3942, 0x8771f681, 0x6d9d6122, 0xfde5380c,
   0xa4beea44, 0x4bdecfa9, 0xf6bb4b60, 0xbebfbc70,
   0x289b7ec6, 0xeaa127fa, 0xd4ef3085, 0x04881d05,
   0xd9d4d039, 0xe6db99e5, 0x1fa27cf8, 0xc4ac5665,
   0xf4292244, 0x432aff97, 0xab9423a7, 0xfc93a039,
   0x655b59c3, 0x8f0ccc92, 0xffeff47d, 0x85845dd1,
   0x6fa87e4f, 0xfe2ce6e0, 0xa3014314, 0x4e0811a1,
   0xf7537e82, 0xbd3af235, 0x2ad7d2bb, 0xeb86d391].getD i 0

/-- The MD5 per-round left-rotation amounts. -/
def md5S (i : Nat) : Nat :=
  if i < 16 then [7, 12, 17, 22].getD (i % 4) 0
  else if i < 32 then [5, 9, 14, 20].getD (i % 4) 0
  else if i < 48 then [4, 11, 16, 23].getD (i % 4) 0
  else [6, 10, 15, 21].getD (i % 4) 0

/-- The MD5 nonlinear function of round `i` applied to words `b`, `c`, `d`. -/
def md5F (i b c d : Nat) : Nat :=
  if i < 16 then (b &&& c) ||| (not32 b &&& d)
  else if i < 32 then (d &&& b) ||| (not32 d &&& c)
  else if i < 48 then b ^^^ c ^^^ d
  else c ^^^ (b ||| not32 d)

/-- The message-word index consumed by round `i`. -/
def md5G (i : Nat) : Nat :=
  if i < 16 then i
  else if i < 32 then (5 * i + 1) % 16
  else if i < 48 then (3 * i + 5) % 16
  else (7 * i) % 16

/-- One MD5 round on the running state `(a, b, c, d)`, with `M` the chunk's
sixteen little-endian message words. -/
def md5round (M : Nat → Nat) (st : Nat × Nat × Nat × Nat) (i : Nat) :
    Nat × Nat × Nat × Nat :=
  match st with
  | (a, b, c, d) =>
      let f := w32 (md5F i b c d + a + md5K i + M (md5G i))
      (d, w32 (b + rotl32 f (md5S i)), b, c)

/-- Little-endian decoding of message word `j` from a 64-byte chunk. -/
def chunkWord (chunk : List Nat) (j : Nat) : Nat :=
  chunk.getD (4 * j) 0 + 256 * chunk.getD (4 * j + 1) 0 +
    65536 * chunk.getD (4 * j + 2) 0 + 16777216 * chunk.getD (4 * j + 3) 0

/-- Process one 64-byte chunk: run the 64 rounds and add the result into the
incoming digest state, word-wise modulo 2^32. -/
def md5chunk (h : Nat × Nat × Nat × Nat) (chunk : List Nat) : Nat × Nat × Nat × Nat :=
  let M := chunkWord chunk
  let r := (List.range 64).foldl (md5round M) h
  (w32 (h.1 + r.1), w32 (h.2.1 + r.2.1), w32 (h.2.2.1 + r.2.2.1), w32 (h.2.2.2 + r.2.2.2))

/-- MD5 padding: append `0x80`, zero bytes up to 56 modulo 64, then the
original bit length as eight little-endian bytes. -/
def md5pad (msg : List Nat) : List Nat :=
  let len := msg.length
  let zeros := (119 - len % 64) % 64
  msg ++ [128] ++ List.replicate zeros 0 ++
    (List.range 8).map (fun i => ((8 * len) >>> (8 * i)) % 256)

/-- Split a byte list into successive 64-byte chunks; the fuel argument (always
called with the list's length, which bounds the chunk count) makes the
recursion structural. -/
def toChunksFuel (fuel : Nat) (l : List Nat) : List (List Nat) :=
  match fuel, l with
  | 0, _ => []
  | _, [] => []
  | fuel2 + 1, x :: rest => ((x :: rest).take 64) :: toChunksFuel fuel2 ((x :: rest).drop 64)

/-- Split a byte list into successive 64-byte chunks. -/
def toChunks (l : List Nat) : List (List Nat) := toChunksFuel l.length l

/-- Little-endian encoding of a 32-bit word as four bytes. -/
def wordLEBytes (x : Nat) : List Nat :=
  [x % 256, (x >>> 8) % 256, (x >>> 16) % 256, (x >>> 24) % 256]

/-- The MD5 digest of a byte list, as sixteen bytes. -/
def md5digestBytes (msg : List Nat) : List Nat :=
  let r := (toChunks (md5pad msg)).foldl md5chunk
    (0x67452301, 0xefcdab89, 0x98badcfe, 0x10325476)
  wordLEBytes r.1 ++ wordLEBytes r.2.1 ++ wordLEBytes r.2.2.1 ++ wordLEBytes r.2.2.2

/-- Lower-case hexadecimal digit. -/
def hexChar (n : Nat) : Char :=
  match n with
  | 0 => '0' | 1 => '1' | 2 => '2' | 3 => '3'
  | 4 => '4' | 5 => '5' | 6 => '6' | 7 => '7'
  | 8 => '8' | 9 => '9' | 10 => 'a' | 11 => 'b'
  | 12 => 'c' | 13 => 'd' | 14 => 'e' | _ => 'f'

/-- The character list of `hashlib.md5(msg).hexdigest()`: two lower-case hex
digits per digest byte. -/
def md5hex (msg : List Nat) : List Char :=
  ((md5digestBytes msg).map (fun b => [hexChar (b / 16), hexChar (b % 16)])).flatten

/-- UTF-8 encoding of one character, as `str.encode()` produces it. -/
def utf8Bytes (c : Char) : List Nat :=
  let n := c.toNat
  if n < 128 then [n]
  else if n < 2048 then [192 + n / 64, 128 + n % 64]
  else if n < 65536 then [224 + n / 4096, 128 + (n / 64) % 64, 128 + n % 64]
  else [240 + n / 262144, 128 + (n / 4096) % 64, 128 + (n / 64) % 64, 128 + n % 64]

/-- The UTF-8 byte sequence of a string, modelling Python `str.encode()`. -/
def strBytes (s : String) : List Nat := (s.data.map utf8Bytes).flatten

/-- Embeds `ConversimpleDispatcher._derive_customer_id` (dispatcher.py lines
303-307): `hashlib.md5(api_key.encode()).hexdigest()[:12]`. -/
def derive_customer_id (api_key : String) : String :=
  String.mk ((md5hex (strBytes api_key)).take 12)

/-- Embeds the customer-id selection in `ConversimpleDispatcher.__init__`
(dispatcher.py line 173): `self.customer_id or self._derive_customer_id(api_key)`
— Python `or` falls through to derivation when the supplied value is `None`
or the empty string. -/
def effective_customer_id (customer_id : Option String) (api_key : String) : String :=
  match customer_id with
  | none => derive_customer_id api_key
  | some c => if c = "" then derive_customer_id api_key else c

/-! ### Connection state machine (spec §3, §4.1)

The `connection.py` module (`WebSocketConnection` / PlatformConnection) is not
part of the source excerpt — `dispatcher.py` only constructs and calls it — so
the state machine below is modelled from the spec. -/

/-- Modelled from the spec: the per-connection `ConnectionState` enum of §3 —
`Disconnected → Connecting → Connected`, `Connected → BackoffWait → Connecting`
on recoverable failure, and `* → CircuitOpen` (terminal) on a
classified-permanent failure; `connection.py` is absent from the source. -/
inductive ConnState
  | Disconnected
  | Connecting
  | Connected
  | BackoffWait
  | CircuitOpen
deriving DecidableEq, Repr

/-- Modelled from the spec: the error classification of §4.1 — Transient
(network/timeout) versus Permanent (authentication rejected, account
suspended). -/
inductive ErrorClass
  | Transient
  | Permanent
deriving DecidableEq, Repr

/-- Outcome the network would give a socket attempt, were one made. -/
inductive ConnectOutcome
  | ok
  | err (c : ErrorClass)
deriving DecidableEq, Repr

/-- Modelled from the spec: the reconnect bookkeeping of a PlatformConnection —
current state, transient-attempt counter, and the optional
`maxReconnectAttempts` budget (`none` meaning unbounded); `connection.py` is
absent from the source. -/
structure PlatformConnection where
  state : ConnState
  attempts : Nat
  maxReconnectAttempts : Option Nat
deriving DecidableEq, Repr

/-- Whether the optional `maxReconnectAttempts` budget still has attempts left. -/
def budgetRemaining (c : PlatformConnection) : Bool :=
  match c.maxReconnectAttempts with
  | none => true
  | some m => c.attempts < m

/-- Modelled from the spec: one `connect()` call (§4.1).  In CircuitOpen the
call fails without attempting a socket; otherwise a socket attempt is made and
its outcome classified — success connects, a permanent error forces CircuitOpen
regardless of remaining budget, a transient error schedules a backoff retry
while budget remains and otherwise enters a terminal failed state without
retry.  The boolean records whether a socket connection was attempted. -/
def connectAttempt (c : PlatformConnection) (o : ConnectOutcome) :
    PlatformConnection × Bool :=
  if c.state = ConnState.CircuitOpen then (c, false)
  else
    match o with
    | ConnectOutcome.ok => ({ c with state := ConnState.Connected }, true)
    | ConnectOutcome.err ErrorClass.Permanent =>
        ({ c with state := ConnState.CircuitOpen }, true)
    | ConnectOutcome.err ErrorClass.Transient =>
        if budgetRemaining c then
          ({ c with state := ConnState.BackoffWait, attempts := c.attempts + 1 }, true)
        else ({ c with state := ConnState.Disconnected }, true)

/-- Run a sequence of `connect()` calls against the given would-be outcomes,
returning the final connection and the number of socket attempts made. -/
def runConnect (c : PlatformConnection) (outcomes : List ConnectOutcome) :
    PlatformConnection × Nat :=
  match outcomes with
  | [] => (c, 0)
  | o :: rest =>
      let r := connectAttempt c o
      let r2 := runConnect r.1 rest
      (r2.1, (if r.2 then 1 else 0) + r2.2)

/-! ### Tool registry (spec §4.3)

The `tools.py` module (ToolRegistry) is not part of the source excerpt — only
its tests and callers are — so `executeTool` is modelled from the spec. -/

/-- Modelled from the spec: the error kinds of `ToolCallResult` (§3, §7) —
`ToolNotFoundError` and `ToolExecutionError`, returned as structured results,
never raised; `tools.py` is absent from the source. -/
inductive ToolErrorKind
  | ToolNotFound
  | ToolExecutionError
deriving DecidableEq, Repr

/-- Modelled from the spec: the tagged variant
`ToolCallResult = Success(value) | Error(kind, message)` of §3. -/
inductive ToolCallResult (V : Type)
  | Success (value : V)
  | Error (kind : ToolErrorKind) (message : String)
deriving DecidableEq, Repr

/-- Modelled from the spec: a ToolRegistry's name → handler table (§4.3); a
handler invoked on arguments either returns a value or raises, represented by
`Except` with the exception message; `tools.py` is absent from the source. -/
structure ToolRegistry (A V : Type) where
  tools : List (String × (A → Except String V))

/-- Modelled from the spec: `executeTool(name, arguments)` (§4.3) — looks up the
descriptor, returns `Error(ToolNotFound)` if absent; otherwise invokes the
handler, catching any exception as `Error(ToolExecutionError, message)` and
wrapping success as `Success(value)`.  The total return type is the guarantee
that no exception propagates to the caller. -/
def executeTool {A V : Type} (reg : ToolRegistry A V) (name : String) (args : A) :
    ToolCallResult V :=
  match dictLookup reg.tools name with
  | none => ToolCallResult.Error ToolErrorKind.ToolNotFound ("Tool not found: " ++ name)
  | some handler =>
      match handler args with
      | Except.ok v => ToolCallResult.Success v
      | Except.error msg => ToolCallResult.Error ToolErrorKind.ToolExecutionError msg

/-! ### Helper lemmas -/

/-- A key that does not occur in an association list is untouched by removal. -/
theorem dictRemove_of_lookup_none {β : Type} (l : List (String × β)) (k : String)
    (h : dictLookup l k = none) : dictRemove l k = l := by
  induction l with
  | nil => rfl
  | cons p rest ih =>
      obtain ⟨k1, v⟩ := p
      by_cases hk : k1 = k
      · simp [dictLookup, hk] at h
      · simp only [dictLookup, if_neg hk] at h
        simp [dictRemove, if_neg hk, ih h]

/-- With no duplicate keys, removing a key makes its lookup fail. -/
theorem dictLookup_dictRemove_self {β : Type} (l : List (String × β)) (k : String)
    (hn : (l.map Prod.fst).Nodup) : dictLookup (dictRemove l k) k = none := by
  induction l with
  | nil => rfl
  | cons p rest ih =>
      obtain ⟨k1, v⟩ := p
      simp only [List.map_cons, List.nodup_cons] at hn
      by_cases hk : k1 = k
      · subst hk
        simp only [dictRemove, if_pos rfl]
        cases hrec : dictLookup rest k1 with
        | none => exact hrec
        | some w =>
            exfalso
            apply hn.1
            clear ih hn
            induction rest with
            | nil => simp [dictLookup] at hrec
            | cons q rest2 ih2 =>
                obtain ⟨k2, w2⟩ := q
                by_cases h2 : k2 = k1
                · simp [h2]
                · simp only [dictLookup, if_neg h2] at hrec
                  simp only [List.map_cons, List.mem_cons]
                  exact Or.inr (ih2 hrec)
      · simp only [dictRemove, if_neg hk, dictLookup, if_neg hk]
        exact ih hn.2

/-- Setting a task's status makes its lookup return that status. -/
theorem lookupTask_setTaskStatus_self (ts : List (Nat × TaskStatus)) (tid : Nat)
    (s : TaskStatus) : lookupTask (setTaskStatus ts tid s) tid = some s := by
  induction ts with
  | nil => simp [setTaskStatus, lookupTask]
  | cons p rest ih =>
      obtain ⟨t, s1⟩ := p
      by_cases ht : t = tid
      · simp [setTaskStatus, lookupTask, ht]
      · simp [setTaskStatus, lookupTask, ht, ih]

/-- Setting one task's status leaves every other task's lookup unchanged. -/
theorem lookupTask_setTaskStatus_ne (ts : List (Nat × TaskStatus)) (tid t2 : Nat)
    (s : TaskStatus) (h : t2 ≠ tid) :
    lookupTask (setTaskStatus ts tid s) t2 = lookupTask ts t2 := by
  have hne : ¬(tid = t2) := fun hh => h hh.symm
  induction ts with
  | nil => simp [setTaskStatus, lookupTask, hne]
  | cons p rest ih =>
      obtain ⟨t, s1⟩ := p
      by_cases ht : t = tid
      · subst ht
        simp [setTaskStatus, lookupTask, hne]
      · simp [setTaskStatus, lookupTask, ht, ih]

/-- Characterisation of `_stop_session`: the caught `agent.stop()` exception has
no effect on the resulting state, so the function is determined by the session
lookup and the task's done-status. -/
theorem stop_session_eq (env : Env) (st : DState) (c : String) :
    stop_session env st c =
      match dictLookup st.active_sessions c with
      | none => st
      | some session =>
          { st with
            active_sessions := dictRemove st.active_sessions c
            tasks :=
              if taskIsDone st.tasks session.task then st.tasks
              else setTaskStatus st.tasks session.task TaskStatus.cancelled } := by
  unfold stop_session
  cases dictLookup st.active_sessions c with
  | none => rfl
  | some session =>
      dsimp only
      cases env.stopResult session.agent <;> rfl

/-- `taskIsDone` holds exactly when the lookup returns `done`. -/
theorem taskIsDone_iff (ts : List (Nat × TaskStatus)) (tid : Nat) :
    taskIsDone ts tid = true ↔ lookupTask ts tid = some TaskStatus.done := by
  unfold taskIsDone
  cases h : lookupTask ts tid with
  | none => simp
  | some s => cases s <;> simp

/-- A task already completed or cancelled stays completed or cancelled across
one `_stop_session` call (cancellation never revives a task). -/
theorem stop_session_preserves_task (env : Env) (st : DState) (c : String) (tid : Nat)
    (h : lookupTask st.tasks tid = some TaskStatus.done ∨
      lookupTask st.tasks tid = some TaskStatus.cancelled) :
    lookupTask (stop_session env st c).tasks tid = some TaskStatus.done ∨
      lookupTask (stop_session env st c).tasks tid = some TaskStatus.cancelled := by
  rw [stop_session_eq]
  cases hl : dictLookup st.active_sessions c with
  | none => exact h
  | some session =>
      simp only
      by_cases hd : taskIsDone st.tasks session.task = true
      · simpa [hd] using h
      · simp only [hd, if_false, Bool.false_eq_true]
        by_cases ht : tid = session.task
        · right
          rw [ht]
          exact lookupTask_setTaskStatus_self st.tasks session.task TaskStatus.cancelled
        · rw [lookupTask_setTaskStatus_ne st.tasks session.task tid TaskStatus.cancelled ht]
          exact h

/-- Task completion/cancellation is preserved across stopping any list of
sessions. -/
theorem stopAllSessions_preserves_task (env : Env) (cids : List String) :
    ∀ (st : DState) (tid : Nat),
      (lookupTask st.tasks tid = some TaskStatus.done ∨
        lookupTask st.tasks tid = some TaskStatus.cancelled) →
      lookupTask (stopAllSessions env st cids).tasks tid = some TaskStatus.done ∨
        lookupTask (stopAllSessions env st cids).tasks tid = some TaskStatus.cancelled := by
  induction cids with
  | nil => intro st tid h; exact h
  | cons c rest ih =>
      intro st tid h
      exact ih (stop_session env st c) tid (stop_session_preserves_task env st c tid h)

/-- `_stop_session` on a live session leaves that session's supervising task
completed or cancelled. -/
theorem stop_session_marks_task (env : Env) (st : DState) (c : String) (s : AgentSession)
    (hl : dictLookup st.active_sessions c = some s) :
    lookupTask (stop_session env st c).tasks s.task = some TaskStatus.done ∨
      lookupTask (stop_session env st c).tasks s.task = some TaskStatus.cancelled := by
  rw [stop_session_eq, hl]
  dsimp only
  by_cases hd : taskIsDone st.tasks s.task = true
  · left
    rw [if_pos hd]
    exact (taskIsDone_iff st.tasks s.task).mp hd
  · right
    rw [if_neg hd]
    exact lookupTask_setTaskStatus_self st.tasks s.task TaskStatus.cancelled

/-- Stopping every snapshotted session (in the snapshot's order, each coroutine
popping its own conversation id) empties the session table and leaves every
snapshotted session's task completed or cancelled. -/
theorem stopAllSessions_complete (env : Env) :
    ∀ (l : List (String × AgentSession)) (st : DState),
      st.active_sessions = l →
      (∀ q ∈ l, (q.2).conversation_id = q.1) →
      (stopAllSessions env st (l.map (fun q => (q.2).conversation_id))).active_sessions
          = [] ∧
      ∀ q ∈ l,
        lookupTask (stopAllSessions env st (l.map (fun q => (q.2).conversation_id))).tasks
            (q.2).task = some TaskStatus.done ∨
        lookupTask (stopAllSessions env st (l.map (fun q => (q.2).conversation_id))).tasks
            (q.2).task = some TaskStatus.cancelled := by
  intro l
  induction l with
  | nil =>
      intro st hst _
      refine ⟨by simpa [stopAllSessions] using hst, ?_⟩
      intro q hq
      cases hq
  | cons p rest ih =>
      intro st hst hkeys
      obtain ⟨k, s⟩ := p
      have hsk : s.conversation_id = k := hkeys (k, s) (List.mem_cons_self _ _)
      have hlook : dictLookup st.active_sessions s.conversation_id = some s := by
        rw [hst, hsk]
        simp [dictLookup]
      have hactive1 : (stop_session env st s.conversation_id).active_sessions = rest := by
        rw [stop_session_eq, hlook]
        dsimp only
        rw [hst, hsk]
        simp [dictRemove]
      have hkeys2 : ∀ q ∈ rest, (q.2).conversation_id = q.1 :=
        fun q hq => hkeys q (List.mem_cons_of_mem _ hq)
      have hmarked := stop_session_marks_task env st s.conversation_id s hlook
      have hmain := ih (stop_session env st s.conversation_id) hactive1 hkeys2
      have hstep :
          stopAllSessions env st (((k, s) :: rest).map (fun q => (q.2).conversation_id)) =
            stopAllSessions env (stop_session env st s.conversation_id)
              (rest.map (fun q => (q.2).conversation_id)) := by
        simp [stopAllSessions]
      refine ⟨by rw [hstep]; exact hmain.1, ?_⟩
      intro q hq
      rcases List.mem_cons.mp hq with hq1 | hq2
      · rw [hstep, hq1]
        exact stopAllSessions_preserves_task env
          (rest.map (fun q => (q.2).conversation_id))
          (stop_session env st s.conversation_id) s.task hmarked
      · rw [hstep]
        exact hmain.2 q hq2

/-- One MD5 word encodes as exactly four bytes. -/
theorem wordLEBytes_length (x : Nat) : (wordLEBytes x).length = 4 := rfl

/-- An MD5 digest is exactly sixteen bytes, whatever the message. -/
theorem md5digestBytes_length (msg : List Nat) : (md5digestBytes msg).length = 16 := by
  unfold md5digestBytes
  simp [wordLEBytes]

/-- Flattening a map that yields two elements per input doubles the length. -/
theorem flatten_pairs_length {α β : Type} (f g : α → β) (l : List α) :
    ((l.map (fun b => [f b, g b])).flatten).length = 2 * l.length := by
  induction l with
  | nil => rfl
  | cons x rest ih =>
      simp only [List.map_cons, List.flatten_cons, List.length_append, ih,
        List.length_cons, List.length_nil]
      omega

/-- An MD5 hex digest is exactly thirty-two characters, whatever the message. -/
theorem md5hex_length (msg : List Nat) : (md5hex msg).length = 32 := by
  unfold md5hex
  rw [flatten_pairs_length (fun b => hexChar (b / 16)) (fun b => hexChar (b % 16)),
    md5digestBytes_length]

/-- The derived customer id is always exactly twelve characters. -/
theorem derive_customer_id_length (k : String) : (derive_customer_id k).length = 12 := by
  show ((md5hex (strBytes k)).take 12).length = 12
  rw [List.length_take, md5hex_length]
  omega

set_option maxRecDepth 20000 in
/-- Sanity test vector for the MD5 embedding: the derived customer id of
"test-key" is the first twelve hex characters of that string's real MD5 digest
53136271c432a1af377c3806c3112ddf. -/
theorem derive_customer_id_test_vector :
    derive_customer_id "test-key" = "53136271c432" := by rfl

/-! ### Claim theorems -/

/-- Claim C1: a `conversation_ready` event for a conversation id that already
has a live session is a no-op — the session table is unchanged, no new agent
instance is constructed (`constructedAgents` unchanged), and no new supervising
task is launched (`tasks` unchanged); `_handle_conversation_ready` returns
before the constructor call and `create_task`. -/
theorem conversation_ready_duplicate_is_noop (reg : Registry) (p : Payload)
    (st : DState) (cid : String) (s : AgentSession)
    (hp : p.conversation_id = some cid)
    (hs : dictLookup st.active_sessions cid = some s) :
    handle_conversation_ready reg p st = st ∧
    (handle_conversation_ready reg p st).active_sessions = st.active_sessions ∧
    (handle_conversation_ready reg p st).constructedAgents = st.constructedAgents ∧
    (handle_conversation_ready reg p st).tasks = st.tasks := by
  have hmain : handle_conversation_ready reg p st = st := by
    unfold handle_conversation_ready
    rw [hp]
    dsimp only
    by_cases h1 : cid = ""
    · rw [if_pos h1]
    · rw [if_neg h1]
      cases p.agent_id with
      | none => rfl
      | some aid =>
          dsimp only
          by_cases h2 : aid = ""
          · rw [if_pos h2]
          · rw [if_neg h2, if_pos (show (dictLookup st.active_sessions cid).isSome = true by
              rw [hs]; rfl)]
  exact ⟨hmain, by rw [hmain], by rw [hmain], by rw [hmain]⟩

theorem conversation_ready_duplicate_is_noop_witness :
    handle_conversation_ready [("a1", ())]
        { event := none, conversation_id := some "c1", agent_id := some "a1" }
        ⟨[("c1", ⟨"a1", "c1", 0, 0⟩)], [(0, TaskStatus.running)], 1, 1, true⟩ =
      ⟨[("c1", ⟨"a1", "c1", 0, 0⟩)], [(0, TaskStatus.running)], 1, 1, true⟩ :=
  (conversation_ready_duplicate_is_noop [("a1", ())]
    { event := none, conversation_id := some "c1", agent_id := some "a1" }
    ⟨[("c1", ⟨"a1", "c1", 0, 0⟩)], [(0, TaskStatus.running)], 1, 1, true⟩
    "c1" ⟨"a1", "c1", 0, 0⟩ rfl (by decide)).1

/-- Claim C7: a `conversation_ready` event whose agent id has no registered
descriptor creates no session — the dispatcher state (session table, agent
constructions, tasks) is returned unchanged, and the handler's total return
type shows no exception reaches the orchestrator on this path. -/
theorem conversation_ready_unregistered_is_noop (reg : Registry) (p : Payload)
    (st : DState) (aid : String)
    (hp : p.agent_id = some aid)
    (hr : dictLookup reg aid = none) :
    handle_conversation_ready reg p st = st := by
  unfold handle_conversation_ready
  cases p.conversation_id with
  | none => rfl
  | some cid =>
      dsimp only
      by_cases h1 : cid = ""
      · rw [if_pos h1]
      · rw [if_neg h1, hp]
        dsimp only
        by_cases h2 : aid = ""
        · rw [if_pos h2]
        · rw [if_neg h2]
          by_cases h3 : (dictLookup st.active_sessions cid).isSome = true
          · rw [if_pos h3]
          · rw [if_neg h3, hr]

theorem conversation_ready_unregistered_is_noop_witness :
    handle_conversation_ready [("a1", ())]
        { event := none, conversation_id := some "c9", agent_id := some "zz" }
        ⟨[("c1", ⟨"a1", "c1", 0, 0⟩)], [(0, TaskStatus.running)], 1, 1, true⟩ =
      ⟨[("c1", ⟨"a1", "c1", 0, 0⟩)], [(0, TaskStatus.running)], 1, 1, true⟩ :=
  conversation_ready_unregistered_is_noop [("a1", ())]
    { event := none, conversation_id := some "c9", agent_id := some "zz" }
    ⟨[("c1", ⟨"a1", "c1", 0, 0⟩)], [(0, TaskStatus.running)], 1, 1, true⟩
    "zz" rfl (by decide)

/-- Claim C9: any control-plane event other than `conversation_ready` and
`conversation_lifecycle` — `connection_warning`, `config_update`, or an unknown
event name — leaves the dispatcher state, hence the session table and every
existing session's agent instance and supervising task, unchanged. -/
theorem other_events_leave_state_unchanged (reg : Registry) (env : Env)
    (event : String) (p : Payload) (st : DState)
    (h1 : event ≠ "conversation_ready") (h2 : event ≠ "conversation_lifecycle") :
    handle_platform_message reg env event p st = st := by
  unfold handle_platform_message
  rw [if_neg h1, if_neg h2]
  by_cases h3 : event = "connection_warning"
  · rw [if_pos h3]
  · rw [if_neg h3]
    by_cases h4 : event = "config_update"
    · rw [if_pos h4]
    · rw [if_neg h4]

theorem other_events_leave_state_unchanged_witness :
    handle_platform_message [("a1", ())] ⟨fun _ => Except.ok (), fun _ => Except.ok ()⟩
        "connection_warning"
        { event := none, conversation_id := some "c1", agent_id := some "a1" }
        ⟨[("c1", ⟨"a1", "c1", 0, 0⟩)], [(0, TaskStatus.running)], 1, 1, true⟩ =
      ⟨[("c1", ⟨"a1", "c1", 0, 0⟩)], [(0, TaskStatus.running)], 1, 1, true⟩ :=
  other_events_leave_state_unchanged [("a1", ())]
    ⟨fun _ => Except.ok (), fun _ => Except.ok ()⟩ "connection_warning"
    { event := none, conversation_id := some "c1", agent_id := some "a1" }
    ⟨[("c1", ⟨"a1", "c1", 0, 0⟩)], [(0, TaskStatus.running)], 1, 1, true⟩
    (by decide) (by decide)

/-- Claim C2: once a PlatformConnection has entered CircuitOpen it never leaves
that state: every subsequent `connect()` call fails without attempting a socket
(returns the connection unchanged with no attempt made), and over any sequence
of calls the state stays CircuitOpen and zero socket attempts occur — even when
the `maxReconnectAttempts` budget has remaining attempts. -/
theorem circuit_open_is_terminal (c : PlatformConnection)
    (outcomes : List ConnectOutcome) (h : c.state = ConnState.CircuitOpen) :
    (∀ o, connectAttempt c o = (c, false)) ∧
    (runConnect c outcomes).1.state = ConnState.CircuitOpen ∧
    (runConnect c outcomes).2 = 0 := by
  have hone : ∀ (c2 : PlatformConnection), c2.state = ConnState.CircuitOpen →
      ∀ o, connectAttempt c2 o = (c2, false) := by
    intro c2 h2 o
    unfold connectAttempt
    rw [if_pos h2]
  refine ⟨hone c h, ?_⟩
  induction outcomes generalizing c with
  | nil => exact ⟨h, rfl⟩
  | cons o rest ih =>
      unfold runConnect
      rw [hone c h o]
      dsimp only
      rcases ih c h with ⟨ha, hb⟩
      exact ⟨ha, by rw [hb]; rfl⟩

theorem circuit_open_is_terminal_witness :
    connectAttempt ⟨ConnState.CircuitOpen, 0, some 5⟩ ConnectOutcome.ok =
        (⟨ConnState.CircuitOpen, 0, some 5⟩, false) ∧
    (runConnect ⟨ConnState.CircuitOpen, 0, some 5⟩
        [ConnectOutcome.ok, ConnectOutcome.err ErrorClass.Transient,
          ConnectOutcome.err ErrorClass.Permanent]).1.state = ConnState.CircuitOpen ∧
    (runConnect ⟨ConnState.CircuitOpen, 0, some 5⟩
        [ConnectOutcome.ok, ConnectOutcome.err ErrorClass.Transient,
          ConnectOutcome.err ErrorClass.Permanent]).2 = 0 :=
  let t := circuit_open_is_terminal ⟨ConnState.CircuitOpen, 0, some 5⟩
    [ConnectOutcome.ok, ConnectOutcome.err ErrorClass.Transient,
      ConnectOutcome.err ErrorClass.Permanent] rfl
  ⟨t.1 ConnectOutcome.ok, t.2.1, t.2.2⟩

/-- Claim C4: `executeTool` never propagates an exception — its return type is
the total `ToolCallResult` — and for every name and argument value: an
unregistered name yields `Error(ToolNotFound)`, a handler that raises yields
`Error(ToolExecutionError, message)`, and a succeeding handler's return value
is wrapped in `Success`. -/
theorem executeTool_spec {A V : Type} (reg : ToolRegistry A V) (name : String)
    (args : A) :
    (dictLookup reg.tools name = none →
      executeTool reg name args =
        ToolCallResult.Error ToolErrorKind.ToolNotFound ("Tool not found: " ++ name)) ∧
    (∀ handler, dictLookup reg.tools name = some handler →
      (∀ v, handler args = Except.ok v →
        executeTool reg name args = ToolCallResult.Success v) ∧
      (∀ msg, handler args = Except.error msg →
        executeTool reg name args =
          ToolCallResult.Error ToolErrorKind.ToolExecutionError msg)) := by
  refine ⟨fun h => ?_, fun handler hh => ⟨fun v hv => ?_, fun msg hm => ?_⟩⟩
  · unfold executeTool
    rw [h]
  · unfold executeTool
    rw [hh]
    dsimp only
    rw [hv]
  · unfold executeTool
    rw [hh]
    dsimp only
    rw [hm]

theorem executeTool_spec_witness :
    executeTool (ToolRegistry.mk [("good", fun _ => Except.ok 42),
        ("bad", fun _ => Except.error "boom")]) "good" 0 =
      ToolCallResult.Success 42 ∧
    executeTool (ToolRegistry.mk [("good", fun _ => Except.ok 42),
        ("bad", fun _ => Except.error "boom")]) "bad" 0 =
      ToolCallResult.Error ToolErrorKind.ToolExecutionError "boom" ∧
    executeTool (ToolRegistry.mk [("good", fun _ => Except.ok 42),
        ("bad", fun _ => Except.error "boom")]) "missing" 0 =
      ToolCallResult.Error ToolErrorKind.ToolNotFound "Tool not found: missing" :=
  let reg : ToolRegistry Nat Nat :=
    ToolRegistry.mk [("good", fun _ => Except.ok 42),
      ("bad", fun _ => Except.error "boom")]
  ⟨((executeTool_spec reg "good" 0).2 (fun _ => Except.ok 42) rfl).1 42 rfl,
   ((executeTool_spec reg "bad" 0).2 (fun _ => Except.error "boom") rfl).2 "boom" rfl,
   (executeTool_spec reg "missing" 0).1 rfl⟩

/-- Claim C5: when the agent's startup routine raises inside the supervising
task, `_run_agent` pops the session entry for that conversation (so under the
dispatcher's no-duplicate-keys invariant the table has no entry for it
afterwards) and returns normally — its total return type shows the failure is
not re-raised to the orchestrator's caller. -/
theorem run_agent_startup_failure_removes_session (env : Env) (inst : Nat)
    (cid : String) (tid : Nat) (st : DState) (e : String)
    (h : env.startResult inst = Except.error e) :
    (run_agent env inst cid tid st).active_sessions =
        dictRemove st.active_sessions cid ∧
    ((st.active_sessions.map Prod.fst).Nodup →
      dictLookup (run_agent env inst cid tid st).active_sessions cid = none) := by
  have hact : (run_agent env inst cid tid st).active_sessions =
      dictRemove st.active_sessions cid := by
    unfold run_agent
    rw [h]
  exact ⟨hact, fun hn => by
    rw [hact]
    exact dictLookup_dictRemove_self st.active_sessions cid hn⟩

theorem run_agent_startup_failure_removes_session_witness :
    (run_agent ⟨fun _ => Except.error "startup failed", fun _ => Except.ok ()⟩ 0 "c1" 0
        ⟨[("c1", ⟨"a1", "c1", 0, 0⟩)], [(0, TaskStatus.running)], 1, 1, true⟩).active_sessions =
      dictRemove [("c1", ⟨"a1", "c1", 0, 0⟩)] "c1" ∧
    dictLookup (run_agent ⟨fun _ => Except.error "startup failed", fun _ => Except.ok ()⟩
        0 "c1" 0
        ⟨[("c1", ⟨"a1", "c1", 0, 0⟩)], [(0, TaskStatus.running)], 1, 1, true⟩).active_sessions
      "c1" = none :=
  let t := run_agent_startup_failure_removes_session
    ⟨fun _ => Except.error "startup failed", fun _ => Except.ok ()⟩ 0 "c1" 0
    ⟨[("c1", ⟨"a1", "c1", 0, 0⟩)], [(0, TaskStatus.running)], 1, 1, true⟩
    "startup failed" rfl
  ⟨t.1, t.2 (by decide)⟩

/-- Claim C6: a `conversation_lifecycle` event with event `conversation_ended`
for a conversation with a live session removes that session from the table (no
entry remains under the no-duplicate-keys invariant), the agent's stop routine
runs with any raised error caught (the embedded `_stop_session` yields the same
state whether `agent.stop()` returns or raises, and the handler's total return
type shows nothing propagates), and the supervising task is cancelled and
awaited when still running — a task already done is left untouched. -/
theorem conversation_ended_stops_and_removes_session (env : Env) (p : Payload)
    (st : DState) (cid : String) (s : AgentSession)
    (hev : p.event = some "conversation_ended")
    (hcid : p.conversation_id = some cid)
    (hne : cid ≠ "")
    (hs : dictLookup st.active_sessions cid = some s)
    (hn : (st.active_sessions.map Prod.fst).Nodup) :
    (handle_conversation_lifecycle env p st).active_sessions =
        dictRemove st.active_sessions cid ∧
    dictLookup (handle_conversation_lifecycle env p st).active_sessions cid = none ∧
    (taskIsDone st.tasks s.task = false →
      lookupTask (handle_conversation_lifecycle env p st).tasks s.task =
        some TaskStatus.cancelled) ∧
    (taskIsDone st.tasks s.task = true →
      (handle_conversation_lifecycle env p st).tasks = st.tasks) := by
  have hred : handle_conversation_lifecycle env p st = stop_session env st cid := by
    unfold handle_conversation_lifecycle
    rw [hev, if_neg (by simp), hcid]
    dsimp only
    rw [if_neg hne]
  rw [hred, stop_session_eq, hs]
  dsimp only
  refine ⟨rfl, dictLookup_dictRemove_self st.active_sessions cid hn, fun hd => ?_,
    fun hd => ?_⟩
  · rw [if_neg (by rw [hd]; exact Bool.false_ne_true)]
    exact lookupTask_setTaskStatus_self st.tasks s.task TaskStatus.cancelled
  · rw [if_pos hd]

theorem conversation_ended_stops_and_removes_session_witness :
    (handle_conversation_lifecycle
        ⟨fun _ => Except.ok (), fun _ => Except.error "stop failed"⟩
        { event := some "conversation_ended", conversation_id := some "c1",
          agent_id := none }
        ⟨[("c1", ⟨"a1", "c1", 0, 0⟩)], [(0, TaskStatus.running)], 1, 1,
          true⟩).active_sessions = dictRemove [("c1", ⟨"a1", "c1", 0, 0⟩)] "c1" ∧
    dictLookup (handle_conversation_lifecycle
        ⟨fun _ => Except.ok (), fun _ => Except.error "stop failed"⟩
        { event := some "conversation_ended", conversation_id := some "c1",
          agent_id := none }
        ⟨[("c1", ⟨"a1", "c1", 0, 0⟩)], [(0, TaskStatus.running)], 1, 1,
          true⟩).active_sessions "c1" = none ∧
    lookupTask (handle_conversation_lifecycle
        ⟨fun _ => Except.ok (), fun _ => Except.error "stop failed"⟩
        { event := some "conversation_ended", conversation_id := some "c1",
          agent_id := none }
        ⟨[("c1", ⟨"a1", "c1", 0, 0⟩)], [(0, TaskStatus.running)], 1, 1,
          true⟩).tasks 0 = some TaskStatus.cancelled :=
  let t := conversation_ended_stops_and_removes_session
    ⟨fun _ => Except.ok (), fun _ => Except.error "stop failed"⟩
    { event := some "conversation_ended", conversation_id := some "c1",
      agent_id := none }
    ⟨[("c1", ⟨"a1", "c1", 0, 0⟩)], [(0, TaskStatus.running)], 1, 1, true⟩
    "c1" ⟨"a1", "c1", 0, 0⟩ rfl rfl (by decide) (by decide) (by decide)
  ⟨t.1, t.2.1, t.2.2.1 (by decide)⟩

/-- Claim C10: `_stop_session` for a conversation id with no entry in the
session table is a no-op — it returns the state unchanged (no agent stop
routine is consulted and no task is touched, as the function returns before
either), so a `conversation_ended` event for an unknown conversation leaves the
state unchanged, and repeating a `conversation_ended` stop is idempotent. -/
theorem stop_session_unknown_is_noop (env : Env) (st : DState) (c : String)
    (hn : (st.active_sessions.map Prod.fst).Nodup) :
    (dictLookup st.active_sessions c = none → stop_session env st c = st) ∧
    (∀ p : Payload, p.conversation_id = some c →
      dictLookup st.active_sessions c = none →
      handle_conversation_lifecycle env p st = st) ∧
    stop_session env (stop_session env st c) c = stop_session env st c := by
  have h1 : dictLookup st.active_sessions c = none → stop_session env st c = st := by
    intro h
    rw [stop_session_eq, h]
  refine ⟨h1, fun p hp hno => ?_, ?_⟩
  · unfold handle_conversation_lifecycle
    by_cases he : p.event ≠ some "conversation_ended"
    · rw [if_pos he]
    · rw [if_neg he, hp]
      dsimp only
      by_cases hc : c = ""
      · rw [if_pos hc]
      · rw [if_neg hc]
        exact h1 hno
  · cases hl : dictLookup st.active_sessions c with
    | none => rw [h1 hl, h1 hl]
    | some s =>
        have hafter : dictLookup (stop_session env st c).active_sessions c = none := by
          rw [stop_session_eq, hl]
          dsimp only
          exact dictLookup_dictRemove_self st.active_sessions c hn
        conv_lhs => rw [stop_session_eq]
        rw [hafter]

theorem stop_session_unknown_is_noop_witness :
    stop_session ⟨fun _ => Except.ok (), fun _ => Except.ok ()⟩
        ⟨[("c1", ⟨"a1", "c1", 0, 0⟩)], [(0, TaskStatus.running)], 1, 1, true⟩ "c2" =
      ⟨[("c1", ⟨"a1", "c1", 0, 0⟩)], [(0, TaskStatus.running)], 1, 1, true⟩ ∧
    handle_conversation_lifecycle ⟨fun _ => Except.ok (), fun _ => Except.ok ()⟩
        { event := some "conversation_ended", conversation_id := some "c2",
          agent_id := none }
        ⟨[("c1", ⟨"a1", "c1", 0, 0⟩)], [(0, TaskStatus.running)], 1, 1, true⟩ =
      ⟨[("c1", ⟨"a1", "c1", 0, 0⟩)], [(0, TaskStatus.running)], 1, 1, true⟩ ∧
    stop_session ⟨fun _ => Except.ok (), fun _ => Except.ok ()⟩
        (stop_session ⟨fun _ => Except.ok (), fun _ => Except.ok ()⟩
          ⟨[("c1", ⟨"a1", "c1", 0, 0⟩)], [(0, TaskStatus.running)], 1, 1, true⟩ "c1")
        "c1" =
      stop_session ⟨fun _ => Except.ok (), fun _ => Except.ok ()⟩
        ⟨[("c1", ⟨"a1", "c1", 0, 0⟩)], [(0, TaskStatus.running)], 1, 1, true⟩ "c1" :=
  let t2 := stop_session_unknown_is_noop
    ⟨fun _ => Except.ok (), fun _ => Except.ok ()⟩
    ⟨[("c1", ⟨"a1", "c1", 0, 0⟩)], [(0, TaskStatus.running)], 1, 1, true⟩ "c2"
    (by decide)
  let t1 := stop_session_unknown_is_noop
    ⟨fun _ => Except.ok (), fun _ => Except.ok ()⟩
    ⟨[("c1", ⟨"a1", "c1", 0, 0⟩)], [(0, TaskStatus.running)], 1, 1, true⟩ "c1"
    (by decide)
  ⟨t2.1 (by decide),
   t2.2.1 (Payload.mk (some "conversation_ended") (some "c2") none) rfl (by decide),
   t1.2.2⟩

/-- Claim C3: after the orchestrator's `stop()` the session table is empty and
every snapshotted session's supervising task is completed or cancelled; each
session's stop is isolated (the agent-stop oracle may raise for any instance —
the embedded `_stop_session` catches it, so every session is still stopped);
and the returned trace shows the control-plane disconnect strictly after all
session stops. -/
theorem dispatcher_stop_spec (env : Env) (st : DState)
    (hkeys : ∀ q ∈ st.active_sessions, (q.2).conversation_id = q.1) :
    (dispatcher_stop env st).1.active_sessions = [] ∧
    (dispatcher_stop env st).1.connected = false ∧
    (∀ q ∈ st.active_sessions,
      lookupTask (dispatcher_stop env st).1.tasks (q.2).task = some TaskStatus.done ∨
      lookupTask (dispatcher_stop env st).1.tasks (q.2).task =
        some TaskStatus.cancelled) ∧
    (dispatcher_stop env st).2 =
      st.active_sessions.map (fun q => StopEvent.sessionStopped (q.2).conversation_id)
        ++ [StopEvent.disconnected] := by
  have hmain := stopAllSessions_complete env st.active_sessions st rfl hkeys
  unfold dispatcher_stop
  dsimp only
  exact ⟨hmain.1, rfl, hmain.2, by rw [List.map_map]; rfl⟩

theorem dispatcher_stop_spec_witness :
    (dispatcher_stop
        ⟨fun _ => Except.ok (), fun i => if i = 0 then Except.error "boom"
          else Except.ok ()⟩
        ⟨[("c1", ⟨"a1", "c1", 0, 0⟩), ("c2", ⟨"a2", "c2", 1, 1⟩)],
          [(0, TaskStatus.done), (1, TaskStatus.running)], 2, 2,
          true⟩).1.active_sessions = [] ∧
    (dispatcher_stop
        ⟨fun _ => Except.ok (), fun i => if i = 0 then Except.error "boom"
          else Except.ok ()⟩
        ⟨[("c1", ⟨"a1", "c1", 0, 0⟩), ("c2", ⟨"a2", "c2", 1, 1⟩)],
          [(0, TaskStatus.done), (1, TaskStatus.running)], 2, 2,
          true⟩).1.connected = false ∧
    (lookupTask (dispatcher_stop
        ⟨fun _ => Except.ok (), fun i => if i = 0 then Except.error "boom"
          else Except.ok ()⟩
        ⟨[("c1", ⟨"a1", "c1", 0, 0⟩), ("c2", ⟨"a2", "c2", 1, 1⟩)],
          [(0, TaskStatus.done), (1, TaskStatus.running)], 2, 2,
          true⟩).1.tasks 1 = some TaskStatus.done ∨
      lookupTask (dispatcher_stop
        ⟨fun _ => Except.ok (), fun i => if i = 0 then Except.error "boom"
          else Except.ok ()⟩
        ⟨[("c1", ⟨"a1", "c1", 0, 0⟩), ("c2", ⟨"a2", "c2", 1, 1⟩)],
          [(0, TaskStatus.done), (1, TaskStatus.running)], 2, 2,
          true⟩).1.tasks 1 = some TaskStatus.cancelled) :=
  let t := dispatcher_stop_spec
    ⟨fun _ => Except.ok (), fun i => if i = 0 then Except.error "boom"
      else Except.ok ()⟩
    ⟨[("c1", ⟨"a1", "c1", 0, 0⟩), ("c2", ⟨"a2", "c2", 1, 1⟩)],
      [(0, TaskStatus.done), (1, TaskStatus.running)], 2, 2, true⟩
    (by decide)
  ⟨t.1, t.2.1, t.2.2.1 ("c2", ⟨"a2", "c2", 1, 1⟩) (by decide)⟩

/-- Claim C8 counterexample: the claim "when a customer identifier is supplied,
it is used unchanged and no derivation occurs" fails at the supplied empty
string — `self.customer_id or self._derive_customer_id(api_key)` is falsy on
`""`, so the dispatcher uses the derived id instead of the supplied one. -/
theorem supplied_empty_customer_id_derives :
    effective_customer_id (some "") "test-key" ≠ "" ∧
    effective_customer_id (some "") "test-key" = derive_customer_id "test-key" := by
  constructor
  · intro hq
    have hl : (effective_customer_id (some "") "test-key").length = 12 := by
      show (derive_customer_id "test-key").length = 12
      exact derive_customer_id_length "test-key"
    rw [hq] at hl
    exact absurd hl (by decide)
  · rfl

/-- Claim C8 (amended): when no customer identifier — or a supplied-but-empty
one, which Python's `or` treats the same as absent — is given at construction,
the connection's customer id is derived from the API key by MD5 truncated to
twelve characters: the result always has exactly twelve characters and equal
API keys give equal results; a supplied non-empty identifier is used unchanged
with no derivation. -/
theorem customer_id_derivation_spec (api_key c : String) :
    (derive_customer_id api_key).length = 12 ∧
    (∀ k2, api_key = k2 → derive_customer_id api_key = derive_customer_id k2) ∧
    effective_customer_id none api_key = derive_customer_id api_key ∧
    (c ≠ "" → effective_customer_id (some c) api_key = c) ∧
    effective_customer_id (some "") api_key = derive_customer_id api_key := by
  refine ⟨derive_customer_id_length api_key, fun k2 hk => by rw [hk], rfl,
    fun hc => ?_, rfl⟩
  unfold effective_customer_id
  dsimp only
  rw [if_neg hc]

theorem customer_id_derivation_spec_witness :
    (derive_customer_id "test-key").length = 12 ∧
    effective_customer_id none "test-key" = derive_customer_id "test-key" ∧
    effective_customer_id (some "cust-1") "test-key" = "cust-1" :=
  let t := customer_id_derivation_spec "test-key" "cust-1"
  ⟨t.1, t.2.2.1, t.2.2.2.1 (by decide)⟩

end Conversimple
